import Mathlib

/-
Verification of the interactive-segmentation-to-polygon annotation engine of
segment-anything-annotator (annotator.py).

The Python functions under study are embedded shallowly:

* `getMaxId` (annotator.py lines 729-734), group-id serialization in
  `saveLabels` (lines 493-524) and the loader `loadAnno` (lines 569-597);
* the mask-to-polygon contour filter and the argmax proposal selection shared
  by `clickManualSegBBox` (lines 783-830) and `clickManualSegBox`
  (lines 833-908);
* the four proposal-selection slots `choose_proposal1..4` (lines 616-638);
* the commit step `addSamMask` (lines 910-940);
* the point-decimation pass `reducePoint` / `get_min_dis`
  (lines 1304-1355).

Conventions of the embedding:

* Python floats are modelled as rationals; every numeric step of the code that
  is used here is exact on the inputs considered, so no rounding is modelled.
* Python code that can raise is modelled in `Except String`, the error string
  naming the Python exception.
* `math.sqrt` is eliminated by squaring: the code only ever compares
  distances, and for nonnegative reals `sqrt a < sqrt b` iff `a < b`, and
  `min (sqrt a) (sqrt b) = sqrt (min a b)`; the embedding therefore carries
  squared distances throughout (`dist2`, `get_min_dis2`, `threshold2`).
-/

namespace SamAnnotator

/-- A Python value sitting in the `group_id` field of a shape: `None`, an
`int`, or (after `loadAnno` restored a saved file, where `saveLabels` wrote
`str(group_id)`) a string. -/
inductive GroupId where
  | none
  | int (n : Int)
  | str (s : String)
deriving DecidableEq, Repr

/-- Modelled from the spec: the `Shape` class lives in `shape.py`, which is not
among the provided sources.  Section 3 of the spec gives its data model: a
label string, a shape-type tag, an optional group id and an ordered point
sequence (`addPoint` appends; insertion order is meaningful).  The `flags` and
`other_data` fields are opaque and never read by the functions verified here,
so they are omitted. -/
structure Shape where
  label : String
  shape_type : String
  group_id : GroupId
  points : List (ℚ × ℚ)
deriving DecidableEq, Repr

/-- True for the group ids that occur on shapes the application itself created
(`None` or a Python `int`), false for the strings that `loadAnno` restores. -/
def isIntOrNone : GroupId → Bool
  | GroupId.none => true
  | GroupId.int _ => true
  | GroupId.str _ => false

/-- Value of a decimal digit character, `Option.none` on a non-digit. -/
def digitVal (c : Char) : Option Nat :=
  if 48 ≤ c.toNat ∧ c.toNat ≤ 57 then some (c.toNat - 48) else Option.none

/-- Accumulating decimal parse of a digit string. -/
def parseDigitsGo : Nat → List Char → Option Nat
  | acc, [] => some acc
  | acc, c :: cs =>
    match digitVal c with
    | some d => parseDigitsGo (acc * 10 + d) cs
    | Option.none => Option.none

/-- Decimal parse of a nonempty digit string. -/
def parseDigits : List Char → Option Nat
  | [] => Option.none
  | cs => parseDigitsGo 0 cs

/-- Python `int(s)` on a string, restricted to the shapes of strings that can
reach it here (an optional sign followed by decimal digits; `str(int)` output
and `"None"` are the cases produced by `saveLabels`).  `Option.none` stands
for the `ValueError` that Python raises on a non-numeric string. -/
def pyIntOfString (s : String) : Option Int :=
  match s.data with
  | '-' :: rest => (parseDigits rest).map (fun n => -(n : Int))
  | '+' :: rest => (parseDigits rest).map (fun n => (n : Int))
  | cs => (parseDigits cs).map (fun n => (n : Int))

/-- Loop body of `getMaxId` (annotator.py lines 729-734): starting from the
accumulator `-1`, every shape whose `group_id` is not `None` contributes
`int(group_id)` to a running maximum.  `int` applied to an unparsable string
raises `ValueError`, which aborts the loop. -/
def getMaxIdGo : Int → List Shape → Except String Int
  | max_id, [] => Except.ok max_id
  | max_id, s :: rest =>
    match s.group_id with
    | GroupId.none => getMaxIdGo max_id rest
    | GroupId.int n => getMaxIdGo (max max_id n) rest
    | GroupId.str t =>
      match pyIntOfString t with
      | some n => getMaxIdGo (max max_id n) rest
      | Option.none =>
        Except.error ("ValueError: invalid literal for int() with base 10: " ++ t)

/-- Function `getMaxId` (annotator.py lines 729-734): `max_id = -1`, then for every
entry of `labelList` whose `group_id != None` take
`max_id = max(max_id, int(group_id))`. -/
def getMaxId (labelList : List Shape) : Except String Int :=
  getMaxIdGo (-1) labelList

/-- The expression `self.getMaxId() + 1`, used at every commit site as the
fresh group id. -/
def nextGroupId (labelList : List Shape) : Except String Int :=
  (getMaxId labelList).map (fun m => m + 1)

/-- The integer group ids present in a shape list, in order. -/
def intGroupIds (shapes : List Shape) : List Int :=
  shapes.filterMap (fun s =>
    match s.group_id with
    | GroupId.int n => some n
    | _ => Option.none)

/-- Stated from the spec's words: the maximum of the existing integer group
ids, taken to be `-1` when there are none. -/
def maxGroupIdSpec (shapes : List Shape) : Int :=
  (intGroupIds shapes).foldl max (-1)

/-- One entry of the `shapes` array of an annotation file, with the fields
`loadAnno` reads.  In a file written by `saveLabels` the `group_id` field is
always a JSON string (`str(group_id)`); the spec's file format also allows
`null`. -/
structure ShapeRecord where
  label : String
  points : List (ℚ × ℚ)
  shape_type : String
  group_id : GroupId
deriving DecidableEq, Repr

/-- Python list indexing `l[i]` with negative-index support;
`Option.none` stands for `IndexError`. -/
def pyIndex (l : List String) (i : Int) : Option String :=
  if 0 ≤ i then l.get? i.toNat
  else if i.natAbs ≤ l.length then l.get? (l.length - i.natAbs)
  else Option.none

/-- The `try: ttt = int(label); label = self.category_list[ttt] except: pass`
block of `loadAnno` (lines 573-578): a label that parses as an integer is
replaced by the category-list entry at that index; any failure (non-integer
label, or an out-of-range index) leaves the label unchanged. -/
def resolveLabel (category_list : List String) (label : String) : String :=
  match pyIntOfString label with
  | some ttt =>
    match pyIndex category_list ttt with
    | some c => c
    | Option.none => label
  | Option.none => label

/-- One iteration of the `loadAnno` loop (lines 572-596): a record with an
empty `points` array is skipped (`if not points: continue`); otherwise a
`Shape` is built from the resolved label and the record's fields, the restored
`group_id` kept verbatim. -/
def loadOne (category_list : List String) (r : ShapeRecord) : Option Shape :=
  if r.points = [] then Option.none
  else some { label := resolveLabel category_list r.label,
              shape_type := r.shape_type,
              group_id := r.group_id,
              points := r.points }

/-- Function `loadAnno` (annotator.py lines 569-597): each surviving record is appended
to `labelList` via `addLabel`. -/
def loadAnno (category_list : List String) (labelList : List Shape)
    (records : List ShapeRecord) : List Shape :=
  labelList ++ records.filterMap (loadOne category_list)

/-- Python `str` on a group id value, as applied by `format_shape` inside
`saveLabels` (line 502): `str(None)` is the string `"None"`. -/
def pyStrOfGroupId : GroupId → String
  | GroupId.none => "None"
  | GroupId.int n => toString n
  | GroupId.str s => s

/-- Helper `format_shape` inside `saveLabels` (lines 496-508), restricted to the
fields `loadAnno` later reads: the `group_id` field is serialized as
`str(group_id)`, a JSON string. -/
def savedRecord (s : Shape) : ShapeRecord :=
  { label := s.label,
    points := s.points,
    shape_type := s.shape_type,
    group_id := GroupId.str (pyStrOfGroupId s.group_id) }

/-- A contour as returned by `cv2.findContours` on a binary mask: an ordered
list of integer pixel coordinates.  Contour extraction itself is the external
OpenCV call; the code under study starts from its result `points_list`. -/
abbrev Contour := List (Int × Int)

/-- Cyclic shoelace sum: `shoelaceGo p0 (p :: ps)` sums
`x_i * y_(i+1) - x_(i+1) * y_i` over the edges from `p` onwards, closing back
to `p0`. -/
def shoelaceGo (p0 : Int × Int) : List (Int × Int) → Int
  | [] => 0
  | [p] => p.1 * p0.2 - p0.1 * p.2
  | p :: q :: rest => (p.1 * q.2 - q.1 * p.2) + shoelaceGo p0 (q :: rest)

/-- Twice the signed area of a closed polygon (shoelace formula over all
cyclically consecutive vertex pairs). -/
def shoelace2 : Contour → Int
  | [] => 0
  | p0 :: rest => shoelaceGo p0 (p0 :: rest)

/-- OpenCV `cv2.contourArea(points)`: the absolute enclosed area by the shoelace
(Green) formula, i.e. half the absolute shoelace sum.  On integer pixel
coordinates this is an exact multiple of one half. -/
def contourArea (pts : Contour) : ℚ :=
  ((shoelace2 pts).natAbs : ℚ) / 2

/-- The contour-filter condition of the conversion loops (lines 812-814 and
890-892): `area < 100 and len(points_list) > 1`.  Since
`contourArea pts = |shoelace2 pts| / 2` exactly, the comparison
`area < 100` is evaluated as the integer comparison `|shoelace2 pts| < 200`;
`contourArea_lt_iff` below proves the two forms equal. -/
def discardContour (points_list : List Contour) (pts : Contour) : Bool :=
  decide ((shoelace2 pts).natAbs < 200) && decide (1 < points_list.length)

/-- The `Shape` built for one surviving contour (lines 818-825): label
`'Object'`, polygon type, group id `getMaxId() + 1` (constant over the loop,
passed in as `gid`), and the contour's points in order. -/
def contourShape (gid : Int) (pts : Contour) : Shape :=
  { label := "Object",
    shape_type := "polygon",
    group_id := GroupId.int gid,
    points := pts.map (fun p => ((p.1 : ℚ), (p.2 : ℚ))) }

/-- The per-mask conversion loop shared by `clickManualSegBBox` (lines
805-827) and `clickManualSegBox` (lines 883-905): every contour of
`points_list` whose area is below 100 is dropped when the mask yielded more
than one contour; each survivor becomes one `Shape`. -/
def maskToShapes (gid : Int) (points_list : List Contour) : List Shape :=
  points_list.filterMap (fun pts =>
    if discardContour points_list pts then Option.none
    else some (contourShape gid pts))

/-- Numpy `np.argmax(scores)`: the first index whose entry is greater than or equal
to every entry of the list (numpy returns the first index attaining the
maximum); `0` on an empty list. -/
def npArgmax (scores : List ℚ) : Nat :=
  scores.findIdx (fun x => decide (∀ y ∈ scores, y ≤ x))

/-- The proposal bookkeeping written by both prediction handlers:
`sam_mask_proposal` collects the converted shape lists of all `N` masks and
`sam_mask` is set while looping at `msk_idx == target_idx` where
`target_idx = np.argmax(iou_prediction)`; when no index matches (impossible
for nonempty score lists of matching length) `sam_mask` keeps its prior
value `sam_mask0`. -/
structure PredictOutcome where
  sam_mask_proposal : List (List Shape)
  sam_mask : List Shape
deriving DecidableEq, Repr

/-- The tail of `clickManualSegBBox` / `clickManualSegBox` after the model
call (lines 802-830 and 879-908): convert every mask, collect all proposals,
and install the proposal at the full-list argmax of the scores as the
selected mask. -/
def processMasks (gid : Int) (masks : List (List Contour)) (scores : List ℚ)
    (sam_mask0 : List Shape) : PredictOutcome :=
  let target_idx := npArgmax scores
  let proposals := masks.map (maskToShapes gid)
  { sam_mask_proposal := proposals,
    sam_mask := (proposals.get? target_idx).getD sam_mask0 }

/-- The slice of window state the proposal-selection buttons read and write. -/
structure SamState where
  sam_mask : List Shape
  sam_mask_proposal : List (List Shape)
deriving DecidableEq, Repr

/-- Slot handler `choose_proposal1` (lines 616-620): installs proposal 0 when
`len(sam_mask_proposal) > 0`, otherwise does nothing. -/
def choose_proposal1 (st : SamState) : SamState :=
  if h : 0 < st.sam_mask_proposal.length
  then { st with sam_mask := st.sam_mask_proposal.get ⟨0, h⟩ }
  else st

/-- Slot handler `choose_proposal2` (lines 622-626): installs proposal 1 when
`len(sam_mask_proposal) > 1`. -/
def choose_proposal2 (st : SamState) : SamState :=
  if h : 1 < st.sam_mask_proposal.length
  then { st with sam_mask := st.sam_mask_proposal.get ⟨1, h⟩ }
  else st

/-- Slot handler `choose_proposal3` (lines 628-632): installs proposal 2 when
`len(sam_mask_proposal) > 2`. -/
def choose_proposal3 (st : SamState) : SamState :=
  if h : 2 < st.sam_mask_proposal.length
  then { st with sam_mask := st.sam_mask_proposal.get ⟨2, h⟩ }
  else st

/-- Slot handler `choose_proposal4` (lines 634-638): installs proposal 3 when
`len(sam_mask_proposal) > 3`. -/
def choose_proposal4 (st : SamState) : SamState :=
  if h : 3 < st.sam_mask_proposal.length
  then { st with sam_mask := st.sam_mask_proposal.get ⟨3, h⟩ }
  else st

/-- Manual selection of proposal slot `k` (0-based): the window wires exactly
four buttons, to `choose_proposal1..4`; a slot number with no button is the
identity on the session state. -/
def choose_slot : Nat → SamState → SamState
  | 0, st => choose_proposal1 st
  | 1, st => choose_proposal2 st
  | 2, st => choose_proposal3 st
  | 3, st => choose_proposal4 st
  | _, st => st

/-- The slice of window and canvas state that `addSamMask` (lines 910-940)
reads and writes: the committed shape list, the selected mask and the proposal
list, the three prompt fields of the canvas, and the `class_on_flag` toggle.
The GUI-only effects (icon reset, button enabling, canvas redraw) are not
modelled. -/
structure AnnState where
  labelList : List Shape
  sam_mask : List Shape
  sam_mask_proposal : List (List Shape)
  currentBox : Option ((ℚ × ℚ) × (ℚ × ℚ))
  currentPos : Option (List (ℚ × ℚ))
  currentNeg : Option (List (ℚ × ℚ))
  class_on_flag : Bool
deriving DecidableEq, Repr

/-- Result of `labelDialog.popUp`: labelme's label dialog returns a 3-tuple
`(label, flags, group_id)` or, in newer versions, a 4-tuple
`(label, flags, group_id, description)`; `addSamMask` unpacks exactly these
two arities (lines 920-923).  The label is a string or `None`
(dialog cancelled); the group id is whatever the dialog's id field held.
The flags and description components are never read by `addSamMask` and are
omitted. -/
inductive DialogResult where
  | three (label : Option String) (group_id : GroupId)
  | four (label : Option String) (group_id : GroupId)
deriving DecidableEq, Repr

/-- The `(label, group_id)` pair `addSamMask` unpacks from either dialog
arity. -/
def dialogFields : DialogResult → Option String × GroupId
  | DialogResult.three l g => (l, g)
  | DialogResult.four l g => (l, g)

/-- The commit loop of `addSamMask` (lines 928-931): every selected shape is
stamped with the final label and group id and appended to `labelList` by
`addLabel`. -/
def stampShapes (label : String) (gid : Int) (shapes : List Shape) : List Shape :=
  shapes.map (fun s => { s with label := label, group_id := GroupId.int gid })

/-- The unconditional tail of `addSamMask` (lines 932-936): the three prompt
fields are set to `None` and the selected mask and proposal list are emptied;
nothing else is touched. -/
def clearSession (st : AnnState) : AnnState :=
  { st with currentBox := Option.none,
            currentPos := Option.none,
            currentNeg := Option.none,
            sam_mask := [],
            sam_mask_proposal := [] }

/-- The committing outcome of `addSamMask`: the stamped shapes appended to
`labelList`, followed by the unconditional clearing tail. -/
def commitResult (st : AnnState) (label : String) (gid : Int) : AnnState :=
  clearSession
    { st with labelList := st.labelList ++ stampShapes label gid st.sam_mask }

/-- Function `addSamMask` (annotator.py lines 910-940).  When the selected mask is
nonempty: `label = 'Object'` and `group_id = getMaxId() + 1` (this `getMaxId`
call can raise); when `class_on_flag` is set the dialog result overwrites the
pair; a `None` label falls back to `'Object'` (`Option.getD` is exactly the
`if label == None` check); a group id that is not an `int` falls back to a
fresh `getMaxId() + 1`; the stamped shapes are appended to `labelList`.  In
every completing path the prompt state is cleared at the end.  The dialog
interaction itself is external; its result is a parameter. -/
def addSamMask (st : AnnState) (dialog : DialogResult) : Except String AnnState :=
  if 0 < st.sam_mask.length then
    match getMaxId st.labelList with
    | Except.error e => Except.error e
    | Except.ok maxId =>
      match (if st.class_on_flag then dialogFields dialog
             else (some "Object", GroupId.int (maxId + 1))) with
      | (labelOpt, GroupId.int n) =>
        Except.ok (commitResult st (labelOpt.getD "Object") n)
      | (labelOpt, _) =>
        match getMaxId st.labelList with
        | Except.error e => Except.error e
        | Except.ok m2 =>
          Except.ok (commitResult st (labelOpt.getD "Object") (m2 + 1))
  else Except.ok (clearSession st)

/-- Squared Euclidean distance between two points; the code computes
`math.sqrt` of this value and only ever compares the result, so the square
root is dropped (squaring is monotone on nonnegative reals). -/
def dist2 (p q : ℚ × ℚ) : ℚ :=
  (p.1 - q.1) * (p.1 - q.1) + (p.2 - q.2) * (p.2 - q.2)

/-- Loop of `get_min_dis` (lines 1349-1354), squared: running minimum of the
squared distances of consecutive point pairs. -/
def minDisGo : (ℚ × ℚ) → List (ℚ × ℚ) → ℚ → ℚ
  | _, [], acc => acc
  | prev, p :: ps, acc => minDisGo p ps (min acc (dist2 p prev))

/-- Function `get_min_dis` (lines 1347-1355), squared: the sentinel `10000` becomes
`10000 ** 2`; with fewer than two points the sentinel is returned.  Since
`min` commutes with `sqrt` on nonnegative arguments, this is exactly the
square of the Python value. -/
def get_min_dis2 (points : List (ℚ × ℚ)) : ℚ :=
  match points with
  | [] => 100000000
  | p :: ps => minDisGo p ps 100000000

/-- The decimation loop of `reducePoint` (lines 1325-1328) at a fixed squared
threshold `t2`: a point is appended exactly when its squared distance to the
last kept point exceeds `t2`. -/
def reduceGo (t2 : ℚ) : (ℚ × ℚ) → List (ℚ × ℚ) → List (ℚ × ℚ)
  | _, [] => []
  | last, p :: ps =>
    if t2 < dist2 p last then p :: reduceGo t2 p ps else reduceGo t2 last ps

/-- One full decimation pass at fixed squared threshold `t2`:
`points_new = [points[0]]` followed by the loop (lines 1324-1328). -/
def decimatePass (t2 : ℚ) : List (ℚ × ℚ) → List (ℚ × ℚ)
  | [] => []
  | p0 :: rest => p0 :: reduceGo t2 p0 rest

/-- The squared decimation threshold `(min_dis * 1.5) ** 2 = 2.25 * min_dis2`
of line 1327. -/
def threshold2 (points : List (ℚ × ℚ)) : ℚ :=
  (9 / 4) * get_min_dis2 points

/-- The per-shape core of `reducePoint` (lines 1321-1329): one decimation
pass over the shape's points at threshold `1.5` times the minimum consecutive
gap of the original sequence. -/
def reducePoints (points : List (ℚ × ℚ)) : List (ℚ × ℚ) :=
  decimatePass (threshold2 points) points

/-- A polygon shape with group id `None`, as the application creates before a
group id is assigned. -/
def noneGidShape : Shape :=
  { label := "Object", shape_type := "polygon", group_id := GroupId.none,
    points := [(0, 0)] }

/-- Three committed shapes carrying the integer group ids 0, 2 and 5. -/
def shapes025 : List Shape :=
  [ { label := "a", shape_type := "polygon", group_id := GroupId.int 0, points := [(0, 0)] },
    { label := "b", shape_type := "polygon", group_id := GroupId.int 2, points := [(0, 0)] },
    { label := "c", shape_type := "polygon", group_id := GroupId.int 5, points := [(0, 0)] } ]

/-- On a shape list whose group ids are all `None` or integers the `getMaxId`
loop completes and folds `max` over the integer group ids from any starting
accumulator. -/
theorem getMaxIdGo_ok (shapes : List Shape) :
    ∀ m : Int, (∀ s ∈ shapes, isIntOrNone s.group_id = true) →
      getMaxIdGo m shapes = Except.ok ((intGroupIds shapes).foldl max m) := by
  induction shapes with
  | nil => intro m _; rfl
  | cons s rest ih =>
    intro m h
    have hs := h s (List.mem_cons_self s rest)
    have hrest : ∀ x ∈ rest, isIntOrNone x.group_id = true :=
      fun x hx => h x (List.mem_cons_of_mem s hx)
    cases hg : s.group_id with
    | none =>
      simp only [getMaxIdGo, hg, intGroupIds, List.filterMap_cons]
      exact ih m hrest
    | int n =>
      simp only [getMaxIdGo, hg, intGroupIds, List.filterMap_cons, List.foldl_cons]
      exact ih (max m n) hrest
    | str t =>
      rw [hg] at hs
      simp [isIntOrNone] at hs

/-- C3: for every annotation set whose group ids are integers or `None`,
`nextGroupId` (that is, `getMaxId() + 1`) equals `1` plus the maximum of the
integer group ids, the maximum taken to be `-1` when there are none. -/
theorem c3_nextGroupId (labelList : List Shape)
    (h : ∀ s ∈ labelList, isIntOrNone s.group_id = true) :
    nextGroupId labelList = Except.ok (1 + maxGroupIdSpec labelList) := by
  unfold nextGroupId getMaxId maxGroupIdSpec
  rw [getMaxIdGo_ok labelList (-1) h]
  exact congrArg Except.ok (Int.add_comm _ _)

/-- Witness for C3: on the empty set `nextGroupId` returns `0`, and on group
ids `0, 2, 5` it returns `6`. -/
theorem c3_witness :
    (nextGroupId [] = Except.ok (1 + maxGroupIdSpec []) ∧
      1 + maxGroupIdSpec ([] : List Shape) = 0) ∧
    (nextGroupId shapes025 = Except.ok (1 + maxGroupIdSpec shapes025) ∧
      1 + maxGroupIdSpec shapes025 = 6) :=
  ⟨⟨c3_nextGroupId [] (by decide), by decide⟩,
   ⟨c3_nextGroupId shapes025 (by decide), by decide⟩⟩

/-- C9: `saveLabels` writes `str(group_id)` (the string `"None"` for a shape
without a group id), `loadAnno` restores that string verbatim, and `getMaxId`
then applies `int()` to it because the string is not the value `None` — so on
an annotation set loaded from a save of `noneGidShape`, `getMaxId` raises
`ValueError` instead of returning an integer. -/
theorem c9_roundtrip_getMaxId_raises :
    (savedRecord noneGidShape).group_id = GroupId.str "None" ∧
    loadAnno [] [] [savedRecord noneGidShape]
      = [{ noneGidShape with group_id := GroupId.str "None" }] ∧
    getMaxId (loadAnno [] [] [savedRecord noneGidShape])
      = Except.error "ValueError: invalid literal for int() with base 10: None" :=
  ⟨rfl, by decide, rfl⟩

/-- A shape produced by `loadOne` always carries the record's nonempty point
list. -/
theorem loadOne_points_ne_nil (cat : List String) (r : ShapeRecord) (s : Shape)
    (h : loadOne cat r = some s) : s.points ≠ [] := by
  unfold loadOne at h
  split at h
  · exact absurd h (by simp)
  · next hp =>
    simp only [Option.some.injEq] at h
    rw [← h]
    exact hp

/-- Records with empty point lists contribute nothing to the loader's
output. -/
theorem filterMap_loadOne_filter (cat : List String) (records : List ShapeRecord) :
    records.filterMap (loadOne cat)
      = (records.filter (fun r => !r.points.isEmpty)).filterMap (loadOne cat) := by
  induction records with
  | nil => rfl
  | cons r rest ih =>
    by_cases hp : r.points = []
    · have h1 : loadOne cat r = Option.none := by simp [loadOne, hp]
      simp [List.filterMap_cons, List.filter_cons, h1, hp, ih]
    · have h2 : r.points.isEmpty = false := by
        simpa [List.isEmpty_iff] using hp
      simp [List.filterMap_cons, List.filter_cons, h2, ih]

/-- A sample category list for the loader. -/
def demoCats : List String := ["cat", "dog"]

/-- Two annotation-file records: one with an empty point list, one whose
label is the string `"1"`. -/
def demoRecords : List ShapeRecord :=
  [ { label := "x", points := [], shape_type := "polygon", group_id := GroupId.none },
    { label := "1", points := [(0, 0)], shape_type := "polygon", group_id := GroupId.str "None" } ]

/-- C7: when every annotation file is loaded, a record with an empty points
array is skipped entirely and never surfaced as a zero-point shape — every
shape present after loading has at least one point — and a record whose label
parses as an integer indexing into the category list has its label replaced
by the entry at that index. -/
theorem c7_loader (category_list : List String) (labelList : List Shape)
    (records : List ShapeRecord)
    (hinit : ∀ s ∈ labelList, s.points ≠ []) :
    (∀ s ∈ loadAnno category_list labelList records, s.points ≠ []) ∧
    loadAnno category_list labelList records
      = loadAnno category_list labelList (records.filter (fun r => !r.points.isEmpty)) ∧
    (∀ r : ShapeRecord, r.points ≠ [] →
      ∀ i : Int, pyIntOfString r.label = some i →
      ∀ c, pyIndex category_list i = some c →
        loadOne category_list r
          = some { label := c, shape_type := r.shape_type,
                   group_id := r.group_id, points := r.points }) := by
  refine ⟨?_, ?_, ?_⟩
  · intro s hs
    rcases List.mem_append.mp hs with h | h
    · exact hinit s h
    · rcases List.mem_filterMap.mp h with ⟨r, _, hr⟩
      exact loadOne_points_ne_nil category_list r s hr
  · unfold loadAnno
    rw [← filterMap_loadOne_filter]
  · intro r hr i hi c hc
    simp [loadOne, resolveLabel, hr, hi, hc]

/-- Witness for C7: loading `demoRecords` against `demoCats` skips the
empty-point record and resolves the label `"1"` to `"dog"`. -/
theorem c7_witness :
    loadAnno demoCats [] demoRecords
      = loadAnno demoCats [] (demoRecords.filter (fun r => !r.points.isEmpty)) ∧
    loadAnno demoCats [] demoRecords
      = [{ label := "dog", shape_type := "polygon",
           group_id := GroupId.str "None", points := [(0, 0)] }] := by
  have h := c7_loader demoCats [] demoRecords (by simp)
  exact ⟨h.2.1, by decide⟩

/-- The code's integer form of the area test agrees with the exact rational
area: `contourArea pts < 100` iff `|shoelace2 pts| < 200`. -/
theorem contourArea_lt_iff (pts : Contour) :
    contourArea pts < 100 ↔ (shoelace2 pts).natAbs < 200 := by
  unfold contourArea
  rw [div_lt_iff₀ (by norm_num : (0 : ℚ) < 2)]
  norm_num

/-- The discard condition is exactly the spec's `area < 100` together with a
contour count above one. -/
theorem discardContour_iff (cs : List Contour) (c : Contour) :
    discardContour cs c = true ↔ (contourArea c < 100 ∧ 1 < cs.length) := by
  unfold discardContour
  rw [Bool.and_eq_true, decide_eq_true_eq, decide_eq_true_eq, contourArea_lt_iff]

/-- Boolean form of `discardContour_iff`. -/
theorem discardContour_eq_decide (cs : List Contour) (c : Contour) :
    discardContour cs c = decide (contourArea c < 100 ∧ 1 < cs.length) := by
  by_cases h : contourArea c < 100 ∧ 1 < cs.length
  · rw [decide_eq_true h]
    exact (discardContour_iff cs c).mpr h
  · rw [decide_eq_false h, ← Bool.not_eq_true]
    intro hc
    exact h ((discardContour_iff cs c).mp hc)

/-- A filterMap whose function drops exactly the elements satisfying `b` is
the map over the filtered list. -/
theorem filterMap_if_eq_filter_map {α β : Type} (b : α → Bool) (f : α → β)
    (l : List α) :
    l.filterMap (fun a => if b a then Option.none else some (f a))
      = (l.filter (fun a => !b a)).map f := by
  induction l with
  | nil => rfl
  | cons a l ih =>
    by_cases hb : b a = true
    · simp [List.filterMap_cons, List.filter_cons, hb, ih]
    · simp [List.filterMap_cons, List.filter_cons, hb, ih]

/-- A unit square contour of area 1. -/
def cSmall : Contour := [(0, 0), (1, 0), (1, 1), (0, 1)]

/-- A square contour of area 400. -/
def cBig : Contour := [(0, 0), (20, 0), (20, 20), (0, 20)]

/-- C1: in the mask-to-polygon conversion a contour is discarded if and only
if its enclosed area is below 100 and the mask yielded more than one contour;
a single contour is always kept regardless of area; with more than one
contour every resulting shape comes from a contour of area at least 100, and
when all of several contours have area below 100 the result is empty. -/
theorem c1_contour_filter (gid : Int) (cs : List Contour) :
    maskToShapes gid cs
      = (cs.filter (fun c => decide ¬(contourArea c < 100 ∧ 1 < cs.length))).map
          (contourShape gid) ∧
    (cs.length = 1 → maskToShapes gid cs = cs.map (contourShape gid)) ∧
    (1 < cs.length →
      ∀ s ∈ maskToShapes gid cs,
        ∃ c ∈ cs, s = contourShape gid c ∧ 100 ≤ contourArea c) ∧
    ((1 < cs.length ∧ ∀ c ∈ cs, contourArea c < 100) → maskToShapes gid cs = []) := by
  have hrep : maskToShapes gid cs
      = (cs.filter (fun c => decide ¬(contourArea c < 100 ∧ 1 < cs.length))).map
          (contourShape gid) := by
    rw [maskToShapes, filterMap_if_eq_filter_map]
    congr 1
    apply List.filter_congr
    intro c _
    rw [discardContour_eq_decide, decide_not]
  refine ⟨hrep, ?_, ?_, ?_⟩
  · intro h1
    obtain ⟨c, rfl⟩ : ∃ c, cs = [c] := by
      cases cs with
      | nil => simp at h1
      | cons c t =>
        cases t with
        | nil => exact ⟨c, rfl⟩
        | cons d t => simp at h1
    simp [maskToShapes, discardContour, List.filterMap_cons]
  · intro hlen s hs
    rw [hrep] at hs
    rcases List.mem_map.mp hs with ⟨c, hcf, rfl⟩
    rcases List.mem_filter.mp hcf with ⟨hc, hcp⟩
    refine ⟨c, hc, rfl, ?_⟩
    have := of_decide_eq_true hcp
    rcases not_and_or.mp this with h | h
    · exact le_of_not_lt h
    · exact absurd hlen h
  · rintro ⟨hlen, hall⟩
    rw [hrep]
    have : cs.filter (fun c => decide ¬(contourArea c < 100 ∧ 1 < cs.length)) = [] := by
      rw [List.filter_eq_nil_iff]
      intro c hc
      have hcc : contourArea c < 100 ∧ 1 < cs.length := ⟨hall c hc, hlen⟩
      simp [hcc]
    rw [this]
    rfl

/-- Witness for C1: a lone area-1 contour is kept; in a pair consisting of an
area-1 and an area-400 contour only the large one survives, and every
survivor has area at least 100. -/
theorem c1_witness :
    maskToShapes 0 [cSmall] = [cSmall].map (contourShape 0) ∧
    maskToShapes 0 [cSmall, cBig] = [contourShape 0 cBig] ∧
    contourArea cSmall = 1 ∧ contourArea cBig = 400 := by
  refine ⟨(c1_contour_filter 0 [cSmall]).2.1 rfl, by decide, ?_, ?_⟩
  · norm_num [contourArea, shoelace2, shoelaceGo, cSmall]
  · norm_num [contourArea, shoelace2, shoelaceGo, cBig]

/-- Every nonempty list of rationals has a member that bounds every member
from above. -/
theorem exists_max_mem : ∀ (l : List ℚ), l ≠ [] → ∃ x ∈ l, ∀ y ∈ l, y ≤ x
  | [], h => absurd rfl h
  | [a], _ => ⟨a, by simp, by simp⟩
  | a :: b :: t, _ => by
    obtain ⟨x, hx, hmax⟩ := exists_max_mem (b :: t) (by simp)
    by_cases hax : a ≤ x
    · refine ⟨x, List.mem_cons_of_mem a hx, ?_⟩
      intro y hy
      rcases List.mem_cons.mp hy with rfl | hy
      · exact hax
      · exact hmax y hy
    · refine ⟨a, List.mem_cons_self a _, ?_⟩
      intro y hy
      rcases List.mem_cons.mp hy with rfl | hy
      · exact le_refl y
      · exact le_trans (hmax y hy) (le_of_not_le hax)

/-- Index `npArgmax` on a nonempty list is a valid index, its entry bounds every
entry, and every earlier entry is strictly smaller (first occurrence of the
maximum, as `np.argmax` documents). -/
theorem npArgmax_spec (scores : List ℚ) (hne : scores ≠ []) :
    ∃ ht : npArgmax scores < scores.length,
      (∀ j (hj : j < scores.length),
        scores.get ⟨j, hj⟩ ≤ scores.get ⟨npArgmax scores, ht⟩) ∧
      ∀ j (hj : j < npArgmax scores),
        scores.get ⟨j, Nat.lt_trans hj ht⟩ < scores.get ⟨npArgmax scores, ht⟩ := by
  obtain ⟨x, hx, hmax⟩ := exists_max_mem scores hne
  have hex : ∃ y ∈ scores, (fun z => decide (∀ w ∈ scores, w ≤ z)) y = true :=
    ⟨x, hx, decide_eq_true hmax⟩
  have ht : npArgmax scores < scores.length :=
    List.findIdx_lt_length_of_exists hex
  have hp : decide (∀ w ∈ scores, w ≤ scores.get ⟨npArgmax scores, ht⟩) = true := by
    have h0 := @List.findIdx_getElem _ (fun z => decide (∀ w ∈ scores, w ≤ z))
      scores (by unfold npArgmax at ht; exact ht)
    simpa [List.get_eq_getElem] using h0
  have atMax : ∀ w ∈ scores, w ≤ scores.get ⟨npArgmax scores, ht⟩ :=
    of_decide_eq_true hp
  refine ⟨ht, ?_, ?_⟩
  · intro j hj
    exact atMax _ (List.get_mem scores j hj)
  · intro j hj
    have hpj : decide (∀ w ∈ scores, w ≤ scores.get ⟨j, Nat.lt_trans hj ht⟩) = false := by
      have h0 := @List.not_of_lt_findIdx _ (fun z => decide (∀ w ∈ scores, w ≤ z))
        scores j (by unfold npArgmax at hj; exact hj)
      simpa [List.get_eq_getElem] using h0
    by_contra hcon
    push_neg at hcon
    have hall : ∀ w ∈ scores, w ≤ scores.get ⟨j, Nat.lt_trans hj ht⟩ :=
      fun w hw => le_trans (atMax w hw) hcon
    exact Bool.noConfusion ((decide_eq_true hall).symm.trans hpj)

/-- Score vector whose full-list argmax falls at index 4, outside the four
selectable slots. -/
def demoScores : List ℚ := [0, 1, 2, 0, 9]

/-- Five single-contour masks matching `demoScores`. -/
def demoMasks : List (List Contour) := [[cSmall], [cBig], [cSmall], [cBig], [cBig]]

/-- C2: the auto-selected default proposal index is the argmax of the full
score vector — a valid index whose score bounds all scores, the first such
index — even when it is at least 4; the default `sam_mask` is the proposal at
that full-list index, while manual selection exists only for the first four
slots (any higher slot is the identity). -/
theorem c2_default_proposal (gid : Int) (masks : List (List Contour))
    (scores : List ℚ) (sam_mask0 : List Shape)
    (hlen : masks.length = scores.length) (hne : scores ≠ []) :
    (∃ ht : npArgmax scores < scores.length,
      (∀ j (hj : j < scores.length),
        scores.get ⟨j, hj⟩ ≤ scores.get ⟨npArgmax scores, ht⟩) ∧
      ∀ j (hj : j < npArgmax scores),
        scores.get ⟨j, Nat.lt_trans hj ht⟩ < scores.get ⟨npArgmax scores, ht⟩) ∧
    (processMasks gid masks scores sam_mask0).sam_mask_proposal.get? (npArgmax scores)
      = some (processMasks gid masks scores sam_mask0).sam_mask ∧
    (∀ st : SamState, ∀ k : Nat, 4 ≤ k → choose_slot k st = st) := by
  obtain ⟨ht, hmax, hfirst⟩ := npArgmax_spec scores hne
  refine ⟨⟨ht, hmax, hfirst⟩, ?_, ?_⟩
  · have hlt : npArgmax scores < (masks.map (maskToShapes gid)).length := by
      rw [List.length_map, hlen]
      exact ht
    unfold processMasks
    simp only [List.get?_eq_get hlt, Option.getD_some]
  · intro st k hk
    rcases k with _ | _ | _ | _ | k
    · exact absurd hk (by decide)
    · exact absurd hk (by decide)
    · exact absurd hk (by decide)
    · exact absurd hk (by decide)
    · rfl

/-- Witness for C2: on `demoScores` the argmax is 4 (outside the four
slots), the default proposal is the one at index 4, and slot 5 selection is
the identity. -/
theorem c2_witness :
    npArgmax demoScores = 4 ∧
    (processMasks 0 demoMasks demoScores []).sam_mask_proposal.get? (npArgmax demoScores)
      = some ((processMasks 0 demoMasks demoScores []).sam_mask) ∧
    choose_slot 5 { sam_mask := [], sam_mask_proposal := [] }
      = { sam_mask := [], sam_mask_proposal := [] } := by
  have h := c2_default_proposal 0 demoMasks demoScores [] (by decide) (by decide)
  exact ⟨by decide, h.2.1, h.2.2 _ 5 (by decide)⟩

/-- C8: manual proposal selection at any slot index at or beyond the current
proposal count leaves the whole session state — both the selected mask and
the proposal list — unchanged. -/
theorem c8_choose_out_of_range (st : SamState) (i : Nat)
    (h : st.sam_mask_proposal.length ≤ i) :
    choose_slot i st = st := by
  rcases i with _ | _ | _ | _ | i
  · show choose_proposal1 st = st
    unfold choose_proposal1
    rw [dif_neg (by omega)]
  · show choose_proposal2 st = st
    unfold choose_proposal2
    rw [dif_neg (by omega)]
  · show choose_proposal3 st = st
    unfold choose_proposal3
    rw [dif_neg (by omega)]
  · show choose_proposal4 st = st
    unfold choose_proposal4
    rw [dif_neg (by omega)]
  · rfl

/-- A session holding a single proposal. -/
def demoSamState : SamState :=
  { sam_mask := [], sam_mask_proposal := [[noneGidShape]] }

/-- Witness for C8: with one proposal present, choosing slot 2 changes
nothing. -/
theorem c8_witness :
    demoSamState.sam_mask_proposal.length ≤ 2 ∧
    choose_slot 2 demoSamState = demoSamState :=
  ⟨by decide, c8_choose_out_of_range demoSamState 2 (by decide)⟩

/-- The decimation loop never returns more points than it was given. -/
theorem reduceGo_length (t2 : ℚ) : ∀ (last : ℚ × ℚ) (ps : List (ℚ × ℚ)),
    (reduceGo t2 last ps).length ≤ ps.length
  | _, [] => le_refl 0
  | last, p :: ps => by
    unfold reduceGo
    by_cases h : t2 < dist2 p last
    · rw [if_pos h]
      simpa using Nat.succ_le_succ (reduceGo_length t2 p ps)
    · rw [if_neg h]
      exact le_trans (reduceGo_length t2 last ps) (Nat.le_succ _)

/-- Every point the decimation loop keeps lies at squared distance above the
threshold from its predecessor in the kept sequence. -/
theorem reduceGo_chain (t2 : ℚ) : ∀ (last : ℚ × ℚ) (ps : List (ℚ × ℚ)),
    List.Chain (fun a b => t2 < dist2 b a) last (reduceGo t2 last ps)
  | _, [] => List.Chain.nil
  | last, p :: ps => by
    unfold reduceGo
    by_cases h : t2 < dist2 p last
    · rw [if_pos h]
      exact List.Chain.cons h (reduceGo_chain t2 p ps)
    · rw [if_neg h]
      exact reduceGo_chain t2 last ps

/-- On a sequence whose consecutive squared gaps already all exceed the
threshold, the decimation loop keeps everything. -/
theorem reduceGo_of_chain (t2 : ℚ) : ∀ (last : ℚ × ℚ) (qs : List (ℚ × ℚ)),
    List.Chain (fun a b => t2 < dist2 b a) last qs → reduceGo t2 last qs = qs
  | _, [], _ => rfl
  | last, q :: qs, h => by
    rcases List.chain_cons.mp h with ⟨h1, h2⟩
    unfold reduceGo
    rw [if_pos h1, reduceGo_of_chain t2 q qs h2]

/-- C6: point simplification retains the first point, never lengthens the
sequence, and re-applying the decimation pass at the same fixed threshold
(1.5 times the original minimum gap) to an already-simplified sequence
returns it unchanged. -/
theorem c6_simplify (points : List (ℚ × ℚ)) :
    (reducePoints points).head? = points.head? ∧
    (reducePoints points).length ≤ points.length ∧
    decimatePass (threshold2 points) (reducePoints points) = reducePoints points := by
  unfold reducePoints
  cases points with
  | nil => exact ⟨rfl, le_refl 0, rfl⟩
  | cons p0 rest =>
    refine ⟨rfl, ?_, ?_⟩
    · simp only [decimatePass, List.length_cons]
      exact Nat.succ_le_succ (reduceGo_length _ p0 rest)
    · simp only [decimatePass]
      rw [reduceGo_of_chain _ p0 _ (reduceGo_chain _ p0 rest)]

/-- The point sequence of the spec's Scenario C. -/
def scenarioC : List (ℚ × ℚ) := [(0, 0), (0, 2), (0, 4), (0, 6), (0, 26)]

/-- C5 counterexample: on Scenario C the code does not return
`[(0,0),(0,6),(0,26)]` — the decimation measures each candidate against the
last KEPT point, so `(0,4)` (distance 4 from `(0,0)`, above the threshold 3)
is kept and `(0,6)` is dropped. -/
theorem c5_counterexample :
    reducePoints scenarioC ≠ [(0, 0), (0, 6), (0, 26)] := by
  have h : reducePoints scenarioC = [(0, 0), (0, 4), (0, 26)] := by
    norm_num [reducePoints, decimatePass, threshold2, get_min_dis2, minDisGo,
      dist2, reduceGo, min_def, scenarioC]
  rw [h]
  decide

/-- C5 amended: simplifying Scenario C (consecutive gaps `[2,2,2,20]`,
minimum gap 2, threshold 3) returns the kept sequence
`[(0,0),(0,4),(0,26)]`. -/
theorem c5_amended :
    reducePoints scenarioC = [(0, 0), (0, 4), (0, 26)] := by
  norm_num [reducePoints, decimatePass, threshold2, get_min_dis2, minDisGo,
    dist2, reduceGo, min_def, scenarioC]

/-- Commit state with one selected shape, labeling enabled and an empty
committed list. -/
def c4State : AnnState :=
  { labelList := [],
    sam_mask := [noneGidShape],
    sam_mask_proposal := [[noneGidShape]],
    currentBox := some ((0, 0), (1, 1)),
    currentPos := Option.none,
    currentNeg := Option.none,
    class_on_flag := true }

/-- C4 counterexample: a dialog result carrying the empty-string label is
stamped verbatim — `addSamMask` replaces only `None` by `'Object'`, not the
empty string, so a committed shape can carry the empty label. -/
theorem c4_counterexample :
    addSamMask c4State (DialogResult.three (some "") (GroupId.int 7))
      = Except.ok (commitResult c4State "" 7) ∧
    (commitResult c4State "" 7).labelList
      = [{ label := "", shape_type := "polygon",
           group_id := GroupId.int 7, points := [(0, 0)] }] := by
  exact ⟨rfl, by decide⟩

/-- C4 amended: with labeling enabled and well-formed existing group ids,
`addSamMask` completes without error for either dialog arity and any group
id value; the stamped label falls back to `'Object'` exactly when the dialog
label is `None` (an empty string is stamped verbatim), and the stamped group
id falls back to the fresh `nextGroupId` value exactly when the dialog group
id is not an integer. -/
theorem c4_amended_defaults (st : AnnState) (dialog : DialogResult)
    (hwf : ∀ s ∈ st.labelList, isIntOrNone s.group_id = true)
    (hflag : st.class_on_flag = true) :
    addSamMask st dialog =
      Except.ok
        (if 0 < st.sam_mask.length then
          commitResult st ((dialogFields dialog).1.getD "Object")
            (match (dialogFields dialog).2 with
             | GroupId.int n => n
             | _ => maxGroupIdSpec st.labelList + 1)
        else clearSession st) := by
  have hget : getMaxId st.labelList = Except.ok (maxGroupIdSpec st.labelList) :=
    getMaxIdGo_ok st.labelList (-1) hwf
  unfold addSamMask
  simp only [hget, hflag, if_true]
  by_cases hmask : 0 < st.sam_mask.length
  · simp only [if_pos hmask]
    cases dialog with
    | three l g => cases g <;> cases l <;> rfl
    | four l g => cases g <;> cases l <;> rfl
  · simp only [if_neg hmask]

/-- Commit state with one committed shape of group id 2, one selected shape
and labeling enabled. -/
def c4WitState : AnnState :=
  { labelList := [ { label := "a", shape_type := "polygon",
                     group_id := GroupId.int 2, points := [(0, 0)] } ],
    sam_mask := [noneGidShape],
    sam_mask_proposal := [],
    currentBox := Option.none,
    currentPos := some [(1, 1)],
    currentNeg := Option.none,
    class_on_flag := true }

/-- Witness for the amended C4: a 4-tuple dialog result with label `None`
and the non-integer group id `"x"` commits with label `'Object'` and the
fresh group id 3. -/
theorem c4_witness :
    addSamMask c4WitState (DialogResult.four Option.none (GroupId.str "x"))
      = Except.ok (commitResult c4WitState "Object" 3) := by
  have h := c4_amended_defaults c4WitState
    (DialogResult.four Option.none (GroupId.str "x")) (by decide) rfl
  rw [h]
  exact congrArg Except.ok (by decide)

/-- Every normally completing `addSamMask` call ends in a `clearSession`
state. -/
theorem addSamMask_ok_clear (st : AnnState) (dialog : DialogResult)
    (st2 : AnnState) (h : addSamMask st dialog = Except.ok st2) :
    ∃ st1, st2 = clearSession st1 := by
  unfold addSamMask at h
  repeat' split at h
  all_goals
    first
      | exact Except.noConfusion h
      | exact ⟨_, (Except.ok.inj h).symm⟩

/-- A session state with one poisoned committed shape (string group id
`"None"` as restored by `loadAnno`), a nonempty selected mask and a live box
prompt. -/
def poisonedState : AnnState :=
  { labelList := [ { label := "Object", shape_type := "polygon",
                     group_id := GroupId.str "None", points := [(0, 0)] } ],
    sam_mask := [noneGidShape],
    sam_mask_proposal := [[noneGidShape]],
    currentBox := some ((0, 0), (1, 1)),
    currentPos := Option.none,
    currentNeg := Option.none,
    class_on_flag := false }

/-- C10 counterexample: a call to `addSamMask` that raises from `getMaxId`
(line 913) aborts before the clearing statements, so the live box prompt is
not cleared — the clearing is not unconditional over every call. -/
theorem c10_counterexample :
    poisonedState.currentBox ≠ Option.none ∧
    0 < poisonedState.sam_mask.length ∧
    addSamMask poisonedState (DialogResult.three (some "x") (GroupId.int 0))
      = Except.error "ValueError: invalid literal for int() with base 10: None" := by
  refine ⟨by decide, by decide, rfl⟩

/-- C10 amended: every call of `addSamMask` that completes normally ends
with the three prompt fields `None` and the selected mask and proposal list
empty; a call whose selected mask is empty always completes normally,
producing exactly the cleared state and leaving the committed shape list
unchanged.  (A call with a nonempty selected mask can instead raise from
`getMaxId`, and then nothing is cleared.) -/
theorem c10_clears (st : AnnState) (dialog : DialogResult) :
    (∀ st2, addSamMask st dialog = Except.ok st2 →
      st2.currentBox = Option.none ∧ st2.currentPos = Option.none ∧
      st2.currentNeg = Option.none ∧ st2.sam_mask = [] ∧
      st2.sam_mask_proposal = []) ∧
    (st.sam_mask = [] →
      addSamMask st dialog = Except.ok (clearSession st) ∧
      (clearSession st).labelList = st.labelList) := by
  constructor
  · intro st2 h
    obtain ⟨st1, rfl⟩ := addSamMask_ok_clear st dialog st2 h
    exact ⟨rfl, rfl, rfl, rfl, rfl⟩
  · intro hempty
    constructor
    · unfold addSamMask
      rw [if_neg (by simp [hempty])]
    · rfl

/-- A session with an empty selected mask but live prompts and proposals. -/
def emptyMaskState : AnnState :=
  { labelList := shapes025,
    sam_mask := [],
    sam_mask_proposal := [[noneGidShape]],
    currentBox := some ((0, 0), (1, 1)),
    currentPos := some [(2, 2)],
    currentNeg := Option.none,
    class_on_flag := false }

/-- Witness for the amended C10: on `emptyMaskState` the call completes,
clears the prompt state and both lists, and leaves the committed shapes
untouched. -/
theorem c10_witness :
    emptyMaskState.sam_mask = [] ∧
    addSamMask emptyMaskState (DialogResult.three Option.none GroupId.none)
      = Except.ok (clearSession emptyMaskState) ∧
    (clearSession emptyMaskState).labelList = emptyMaskState.labelList := by
  have h := (c10_clears emptyMaskState (DialogResult.three Option.none GroupId.none)).2 rfl
  exact ⟨rfl, h.1, h.2⟩

end SamAnnotator
